import Mathlib

/-!
Verification development for the compliance-dashboard repository and the
workflow/process orchestration engine its specification designs.

Part A embeds, straight from `src/src/pages/risk/RiskModule.tsx`, the
pure logic of the workflow UI module: success-rate formatting, the
instance fetch (ordered, limited) and the client-side instance filter.

Part B models the execution engine.  The repository contains only the
engine's database schema and passive UI (its own spec, section 9, notes
that the execution loop is absent from the source), so the engine is
modelled from the specification's words and every definition of Part B
carries a doc comment saying what it models.
-/

namespace RiskModule

/-- Embeds `interface AutomationMetric` of RiskModule.tsx (the numeric
fields relevant to the success-rate computation; JS numbers holding
counts are modelled as naturals). -/
structure AutomationMetric where
  id : String
  automation_type : String
  task_name : String
  execution_count : Nat
  success_count : Nat
  failure_count : Nat
deriving DecidableEq

/-- Formatting of a nonnegative rational to one decimal place, the
model of JavaScript `x.toFixed(1)` used by `calculateSuccessRate`. -/
def toFixed1 (q : ℚ) : String :=
  let r : ℚ := q * 10 + 1 / 2
  let n : Nat := (r.num / (r.den : ℤ)).toNat
  toString (n / 10) ++ "." ++ toString (n % 10)

/-- Embeds `calculateSuccessRate` of RiskModule.tsx:
`if (total === 0) return '0'; return ((success_count / total) * 100).toFixed(1)`. -/
def calculateSuccessRate (metric : AutomationMetric) : String :=
  let total := metric.execution_count
  if total = 0 then "0"
  else toFixed1 ((metric.success_count : ℚ) / (total : ℚ) * 100)

/-- Division instrumented with a zero-denominator check: `none` exactly
when the division would be performed with a zero denominator. -/
def checkedDiv (a b : ℚ) : Option ℚ :=
  if b = 0 then none else some (a / b)

/-- `calculateSuccessRate` with its division routed through `checkedDiv`,
to state that the guard makes the division safe. -/
def calculateSuccessRateChecked (metric : AutomationMetric) : Option String :=
  let total := metric.execution_count
  if total = 0 then some "0"
  else (checkedDiv (metric.success_count : ℚ) (total : ℚ)).map (fun r => toFixed1 (r * 100))

/-- Embeds `interface WorkflowInstance` of RiskModule.tsx (fields used by
the fetch and the filter; timestamps modelled as naturals so that the
`started_at` ordering is comparable). -/
structure WorkflowInstance where
  id : String
  workflow_id : String
  status : String
  started_by : String
  started_at : Nat
  completed_at : Option Nat
  error_message : Option String
  workflow_name : Option String
deriving DecidableEq

/-- The `started_at`-descending order used by
`.order('started_at', \x7b ascending: false \x7d)` in `fetchInstances`. -/
def startedDesc (a b : WorkflowInstance) : Prop :=
  b.started_at ≤ a.started_at

instance : DecidableRel startedDesc := fun a b => by
  unfold startedDesc; infer_instance

instance : IsTotal WorkflowInstance startedDesc :=
  ⟨fun a b => Nat.le_total b.started_at a.started_at⟩

instance : IsTrans WorkflowInstance startedDesc :=
  ⟨fun _ _ _ hab hbc => Nat.le_trans hbc hab⟩

/-- Embeds the query semantics of `fetchInstances` in RiskModule.tsx:
select all workflow instances, order by `started_at` descending, limit
to 100 rows.  `rows` stands for the table contents. -/
def fetchInstances (rows : List WorkflowInstance) : List WorkflowInstance :=
  (List.insertionSort startedDesc rows).take 100

/-- Lower-casing of a string, the model of JavaScript `toLowerCase()`
(written over the character list so that it evaluates by reduction). -/
def lowerStr (s : String) : String :=
  ⟨s.data.map Char.toLower⟩

/-- Substring containment on character lists, the model of JavaScript
`String.prototype.includes`. -/
def listContainsSub (needle : List Char) : List Char → Bool
  | [] => needle.isEmpty
  | c :: t => needle.isPrefixOf (c :: t) || listContainsSub needle t

/-- `hay.includes(needle)` on strings. -/
def strContains (hay needle : String) : Bool :=
  listContainsSub needle.toList hay.toList

/-- Embeds `matchesSearch` of `filteredInstances` in RiskModule.tsx:
`!searchTerm || i.workflow_name?.toLowerCase().includes(searchTerm.toLowerCase())`
(a missing `workflow_name` makes the optional chain falsy). -/
def matchesSearch (searchTerm : String) (i : WorkflowInstance) : Bool :=
  searchTerm = "" ||
    (match i.workflow_name with
     | none => false
     | some nm => strContains (lowerStr nm) (lowerStr searchTerm))

/-- Embeds `matchesStatus` of `filteredInstances` in RiskModule.tsx:
`selectedStatus === 'all' || i.status === selectedStatus`. -/
def matchesStatus (selectedStatus : String) (i : WorkflowInstance) : Bool :=
  selectedStatus = "all" || i.status = selectedStatus

/-- Embeds `filteredInstances` of RiskModule.tsx:
`instances.filter(i => matchesSearch && matchesStatus)`. -/
def filteredInstances (instances : List WorkflowInstance)
    (searchTerm selectedStatus : String) : List WorkflowInstance :=
  instances.filter (fun i => matchesSearch searchTerm i && matchesStatus selectedStatus i)

end RiskModule

namespace Engine

/-- Modelled from the spec: the variable bag of a process instance, an
opaque key-to-value map visible to guard expressions (values modelled as
integers). -/
abbrev VarBag := List (String × Int)

/-- Modelled from the spec: lookup of a variable in the bag. -/
def getVar (bag : VarBag) (k : String) : Option Int :=
  (List.find? (fun kv => kv.1 = k) bag).map (fun kv => kv.2)

/-- Modelled from the spec: writing one key into the bag. -/
def setVar (bag : VarBag) (k : String) (v : Int) : VarBag :=
  (k, v) :: List.filter (fun kv => kv.1 ≠ k) bag

/-- Modelled from the spec: merging an automatic step's declared output
keys (or an event payload) into the bag. -/
def mergeVars (bag outs : VarBag) : VarBag :=
  List.foldl (fun b kv => setVar b kv.1 kv.2) bag outs

/-- Modelled from the spec: a guard, a boolean expression over instance
variables deciding edge traversal. -/
inductive Guard
  | boolConst (b : Bool)
  | varEq (k : String) (v : Int)
  | varLt (k : String) (v : Int)
  | gNot (g : Guard)
  | gAnd (g₁ g₂ : Guard)
deriving DecidableEq

/-- Modelled from the spec: evaluating a guard against the variable bag
(an absent variable makes a comparison false). -/
def evalGuard (bag : VarBag) : Guard → Bool
  | .boolConst b => b
  | .varEq k v => match getVar bag k with
    | some x => x = v
    | none => false
  | .varLt k v => match getVar bag k with
    | some x => x < v
    | none => false
  | .gNot g => !evalGuard bag g
  | .gAnd g₁ g₂ => evalGuard bag g₁ && evalGuard bag g₂

/-- Modelled from the spec: an outgoing edge of a step, with an optional
guard expression; an edge without a guard is a declared default (always
eligible). -/
structure Edge where
  target : String
  guard : Option Guard
deriving DecidableEq

/-- Modelled from the spec: whether an edge is eligible against the bag
(a declared default counts as true). -/
def edgeTrue (bag : VarBag) (e : Edge) : Bool :=
  match e.guard with
  | none => true
  | some g => evalGuard bag g

/-- Modelled from the spec: the closed tagged-variant step kinds `Task`,
`Timer`, `Gateway` (exclusive or parallel split), `Automatic`, `End`. -/
inductive StepKind
  | task (assignee : String) (due : Option Nat)
  | timer (fireAt : Nat)
  | gateway (parallel : Bool)
  | automatic (action : String)
  | endStep
deriving DecidableEq

/-- Modelled from the spec: a step node of a definition graph — id,
step-kind and outgoing edges in declaration order. -/
structure StepSpec where
  id : String
  kind : StepKind
  edges : List Edge
deriving DecidableEq

/-- Modelled from the spec: a versioned, immutable process definition:
a directed graph of steps with a designated start step. -/
structure ProcessDefinition where
  name : String
  version : Nat
  steps : List StepSpec
  start : String
  active : Bool
deriving DecidableEq

/-- Modelled from the spec: step lookup in a definition graph. -/
def lookupStep (d : ProcessDefinition) (sid : String) : Option StepSpec :=
  List.find? (fun s => s.id = sid) d.steps

/-- Modelled from the spec: the instance status set `Running`,
`Suspended`, `Completed`, `Failed`, `Cancelled`. -/
inductive Status
  | running
  | suspended
  | completed
  | failed
  | cancelled
deriving DecidableEq

/-- Modelled from the spec: the error taxonomy members that surface as a
terminal instance error (`StepConfigError`, `CollaboratorError`). -/
inductive EngineError
  | stepConfigError (msg : String)
  | collaboratorError (msg : String)
deriving DecidableEq

/-- Modelled from the spec: a process instance — definition reference,
status, variable bag, active step positions, ordered history of
entered/exited steps and an optional terminal error. -/
structure ProcessInstance where
  defName : String
  defVersion : Nat
  status : Status
  vars : VarBag
  active : List String
  history : List (String × Bool)
  error : Option EngineError
deriving DecidableEq

/-- Modelled from the spec: the task status set `Open`, `Completed`,
`Expired`, `Cancelled`. -/
inductive TaskStatus
  | open_
  | completed
  | expired
  | cancelled
deriving DecidableEq

/-- Modelled from the spec: a Task Ledger entry — originating step,
assignee, due timestamp, status and a result payload written on
completion. -/
structure Task where
  id : Nat
  stepId : String
  assignee : String
  due : Option Nat
  status : TaskStatus
  result : Option Int
deriving DecidableEq

/-- Modelled from the spec: a timer disposition `Pending`, `Fired`,
`Cancelled`. -/
inductive TimerDisp
  | pending
  | fired
  | cancelled
deriving DecidableEq

/-- Modelled from the spec: a Timer Subscription — step id, fire time,
disposition. -/
structure TimerSubscription where
  stepId : String
  fireAt : Nat
  disposition : TimerDisp
deriving DecidableEq

/-- Modelled from the spec: the state the engine mutates while
processing step-events of one instance — the instance row together with
the Task Ledger entries, Timer Subscriptions and the Event correlation
history owned by that instance. -/
structure EngineState where
  defn : ProcessDefinition
  inst : ProcessInstance
  tasks : List Task
  nextTaskId : Nat
  timers : List TimerSubscription
  appliedEvents : List (String × String)
deriving DecidableEq

/-- Modelled from the spec: an automatic-step collaborator — a named,
versioned side-effect call taking the variable bag to output variables
or an error; the first argument is the attempt index so that transient
failures can be modelled. -/
abbrev Collaborator := Nat → String → VarBag → Except String VarBag

/-- Modelled from the spec: `cancel_for_instance` on the Task Ledger —
bulk-cancel of all open tasks when an instance is cancelled or fails. -/
def cancelOpenTasks (ts : List Task) : List Task :=
  ts.map (fun t => if t.status = TaskStatus.open_ then { t with status := TaskStatus.cancelled } else t)

/-- Modelled from the spec: cancellation of all pending timers when an
instance is cancelled or fails. -/
def cancelPendingTimers (ts : List TimerSubscription) : List TimerSubscription :=
  ts.map (fun t => if t.disposition = TimerDisp.pending then { t with disposition := TimerDisp.cancelled } else t)

/-- Modelled from the spec: transition of an instance to the terminal
`Failed` state with the error recorded, cancelling its open tasks and
pending timers. -/
def failInstance (st : EngineState) (e : EngineError) : EngineState :=
  { st with
    inst := { st.inst with status := Status.failed, error := some e, active := [] }
    tasks := cancelOpenTasks st.tasks
    timers := cancelPendingTimers st.timers }

/-- Modelled from the spec: the exponential backoff delay before retry
`k` of an automatic step. -/
def backoff (k : Nat) : Nat := 2 ^ k

/-- Outcome of the bounded retry loop of an automatic step: the final
result, the number of attempts performed, and the backoff delays waited
between attempts. -/
structure RetryOutcome where
  result : Except String VarBag
  attempts : Nat
  delays : List Nat

/-- Modelled from the spec: the bounded retry loop — attempt `i`, and on
error wait `backoff i` and retry while attempts remain; when the ceiling
is exceeded the last error is the result. -/
def retryFrom (call : Nat → Except String VarBag) : Nat → Nat → String → RetryOutcome
  | i, 0, lastErr => ⟨Except.error lastErr, i, []⟩
  | i, Nat.succ r, _ =>
    match call i with
    | Except.ok out => ⟨Except.ok out, i + 1, []⟩
    | Except.error e =>
      let rest := retryFrom call (i + 1) r e
      ⟨rest.result, rest.attempts, (if r = 0 then [] else [backoff i]) ++ rest.delays⟩

/-- Modelled from the spec: retry with exponential backoff up to a
configured attempt ceiling. -/
def runAutomaticRetries (call : Nat → Except String VarBag) (ceiling : Nat) : RetryOutcome :=
  retryFrom call 0 ceiling ""

end Engine

namespace Engine

/-- Modelled from the spec: appending a step-entered record to the
instance history. -/
def histEnter (st : EngineState) (sid : String) : EngineState :=
  { st with inst := { st.inst with history := st.inst.history ++ [(sid, true)] } }

/-- Modelled from the spec: moving an active position from `sid` along an
edge to `tgt`, recording the step exit in the history. -/
def moveActive (st : EngineState) (sid tgt : String) : EngineState :=
  { st with inst := { st.inst with
      active := (st.inst.active.erase sid) ++ [tgt]
      history := st.inst.history ++ [(sid, false)] } }

/-- Terminal error message for a step with no eligible outgoing edge
(for an exclusive gateway: no true guard and no declared default). -/
def noEligibleEdgeMsg : String := "no eligible outgoing edge"

/-- Modelled from the spec: leaving a step along its outgoing edges —
the first edge whose guard is true in declaration order is taken; with
no eligible edge the instance is `Failed` with a `StepConfigError`, not
silently stalled.  Returns the state and the worklist of entered
targets. -/
def followEdges (st : EngineState) (sid : String) (edges : List Edge) :
    EngineState × List String :=
  match List.find? (fun e => edgeTrue st.inst.vars e) edges with
  | none => (failInstance st (EngineError.stepConfigError noEligibleEdgeMsg), [])
  | some e => (moveActive st sid e.target, [e.target])

/-- Modelled from the spec: the per-step dispatch of the advancement
algorithm — entering step `sid` once and returning the follow-on
worklist of step ids still to enter.
`Automatic`: invoke the collaborator with bounded retries, merge outputs
and follow edges, or transition to `Failed` with the error recorded.
`Task`/`Timer`: create the ledger entry / subscription and wait.
`Gateway`: exclusive takes the first true edge, parallel every true
edge; no eligible edge is a `Failed` instance.
`End`: retire the position; the last position completes the instance. -/
def stepOnce (collab : Collaborator) (ceiling : Nat) (st : EngineState) (sid : String) :
    EngineState × List String :=
  if st.inst.status = Status.running then
    match lookupStep st.defn sid with
    | none => (failInstance st (EngineError.stepConfigError ("unknown step " ++ sid)), [])
    | some step =>
      let st1 := histEnter st sid
      match step.kind with
      | StepKind.endStep =>
        let active := st1.inst.active.erase sid
        ({ st1 with inst := { st1.inst with
            active := active
            status := if active.isEmpty then Status.completed else Status.running
            history := st1.inst.history ++ [(sid, false)] } }, [])
      | StepKind.task assignee due =>
        ({ st1 with
            tasks := st1.tasks ++ [{ id := st1.nextTaskId, stepId := sid, assignee := assignee,
                                     due := due, status := TaskStatus.open_, result := none }]
            nextTaskId := st1.nextTaskId + 1 }, [])
      | StepKind.timer fireAt =>
        ({ st1 with timers := st1.timers ++ [{ stepId := sid, fireAt := fireAt,
                                               disposition := TimerDisp.pending }] }, [])
      | StepKind.gateway parallel =>
        if parallel then
          let chosen := List.filter (fun e => edgeTrue st1.inst.vars e) step.edges
          if chosen.isEmpty then
            (failInstance st1 (EngineError.stepConfigError noEligibleEdgeMsg), [])
          else
            ({ st1 with inst := { st1.inst with
                active := (st1.inst.active.erase sid) ++ chosen.map Edge.target
                history := st1.inst.history ++ [(sid, false)] } }, chosen.map Edge.target)
        else followEdges st1 sid step.edges
      | StepKind.automatic action =>
        let outcome := runAutomaticRetries (fun i => collab i action st1.inst.vars) ceiling
        match outcome.result with
        | Except.error e => (failInstance st1 (EngineError.collaboratorError e), [])
        | Except.ok outs =>
          followEdges { st1 with inst := { st1.inst with vars := mergeVars st1.inst.vars outs } }
            sid step.edges
  else (st, [])

/-- Modelled from the spec: the advancement loop — process the worklist
of step ids one at a time, each entry possibly producing follow-on
targets (`Automatic`/`Gateway` advance immediately); `fuel` bounds the
chain, standing for the publish-time termination-reachability check. -/
def run (collab : Collaborator) (ceiling : Nat) : Nat → EngineState → List String → EngineState
  | _, st, [] => st
  | 0, st, _ :: _ => failInstance st (EngineError.stepConfigError "step budget exhausted")
  | Nat.succ fuel, st, sid :: rest =>
    let p := stepOnce collab ceiling st sid
    run collab ceiling fuel p.1 (p.2 ++ rest)

/-- Modelled from the spec: resuming an instance waiting at step `sid`
after that step's wait ended (task completed or expired, timer fired):
the step's outgoing edges are evaluated as a normal edge-selection input
and the instance advances. -/
def resumeFrom (collab : Collaborator) (ceiling fuel : Nat) (st : EngineState) (sid : String) :
    EngineState :=
  if st.inst.status = Status.running then
    match lookupStep st.defn sid with
    | none => failInstance st (EngineError.stepConfigError ("unknown step " ++ sid))
    | some step =>
      let p := followEdges st sid step.edges
      run collab ceiling fuel p.1 p.2
  else st

/-- Modelled from the spec: recording a completion result on the ledger
entry with the given id. -/
def markCompleted (ts : List Task) (tid : Nat) (result : Int) : List Task :=
  ts.map (fun u =>
    if u.id = tid then { u with status := TaskStatus.completed, result := some result } else u)

/-- Modelled from the spec: transitioning the ledger entry with the
given id to `Expired`. -/
def markExpired (ts : List Task) (tid : Nat) : List Task :=
  ts.map (fun u => if u.id = tid then { u with status := TaskStatus.expired } else u)

/-- Modelled from the spec: `complete(task_id, actor, result)` on the
Task Ledger — completion of a task not in `Open` status is a no-op
returning the original result (not an error); completing an open task
records the result and advances the owning instance from the task's
step. -/
def completeTask (collab : Collaborator) (ceiling fuel : Nat) (st : EngineState)
    (tid : Nat) (_actor : String) (result : Int) : EngineState × Option Int :=
  match List.find? (fun t => t.id = tid) st.tasks with
  | none => (st, none)
  | some t =>
    if t.status = TaskStatus.open_ then
      if st.inst.status = Status.running then
        let st1 := { st with tasks := markCompleted st.tasks tid result }
        (resumeFrom collab ceiling fuel st1 t.stepId, some result)
      else (st, none)
    else (st, t.result)

/-- Modelled from the spec: `expire(task_id)` on the Task Ledger —
transition an uncompleted task to `Expired` and deliver a step-event to
the engine, treated as a normal edge-selection input. -/
def expireTask (collab : Collaborator) (ceiling fuel : Nat) (st : EngineState) (tid : Nat) :
    EngineState :=
  match List.find? (fun t => t.id = tid) st.tasks with
  | none => st
  | some t =>
    if t.status = TaskStatus.open_ then
      if st.inst.status = Status.running then
        let st1 := { st with tasks := markExpired st.tasks tid }
        resumeFrom collab ceiling fuel st1 t.stepId
      else st
    else st

/-- Modelled from the spec: delivery of a timer fire for step `sid` —
idempotent, detected via the Timer Subscription's disposition: with no
pending subscription for that step (already fired or cancelled) the
delivery is a no-op; otherwise the subscription is marked `Fired` and
the instance resumes. -/
def fireTimer (collab : Collaborator) (ceiling fuel : Nat) (st : EngineState) (sid : String) :
    EngineState :=
  if st.inst.status = Status.running then
    match List.find? (fun tm => tm.stepId = sid && tm.disposition = TimerDisp.pending) st.timers with
    | none => st
    | some _ =>
      let st1 := { st with timers := st.timers.map (fun tm =>
        if tm.stepId = sid && tm.disposition = TimerDisp.pending then
          { tm with disposition := TimerDisp.fired }
        else tm) }
      resumeFrom collab ceiling fuel st1 sid
  else st

/-- Modelled from the spec: delivery of an external event matched by
`(name, correlation key)` — idempotent, detected via the Event
correlation history: an already-applied pair is a no-op; a new pair is
recorded and its payload merged into the variable bag. -/
def deliverEvent (st : EngineState) (name key : String) (payload : VarBag) : EngineState :=
  if st.inst.status = Status.running then
    if (name, key) ∈ st.appliedEvents then st
    else { st with
      appliedEvents := (name, key) :: st.appliedEvents
      inst := { st.inst with vars := mergeVars st.inst.vars payload } }
  else st

/-- Modelled from the spec: explicit administrative cancellation — a
non-terminal instance becomes `Cancelled` and all its open tasks and
pending timers are cancelled; a terminal instance is untouched
(`AlreadyTerminal` is a soft no-op). -/
def cancelInstance (st : EngineState) : EngineState :=
  if st.inst.status = Status.running ∨ st.inst.status = Status.suspended then
    { st with
      inst := { st.inst with status := Status.cancelled, active := [] }
      tasks := cancelOpenTasks st.tasks
      timers := cancelPendingTimers st.timers }
  else st

/-- Modelled from the spec: the externally-requested pause — a `Running`
instance becomes `Suspended`; no automatic transitions are processed
while suspended. -/
def suspendInstance (st : EngineState) : EngineState :=
  if st.inst.status = Status.running then
    { st with inst := { st.inst with status := Status.suspended } }
  else st

/-- Modelled from the spec: resumption of an externally-requested pause
— a `Suspended` instance always resumes to `Running`. -/
def resumeInstance (st : EngineState) : EngineState :=
  if st.inst.status = Status.suspended then
    { st with inst := { st.inst with status := Status.running } }
  else st

/-- Modelled from the spec: the step-event input type of the engine —
task completed, task expired, timer fired, external event matched. -/
inductive StepEventMsg
  | taskCompleted (tid : Nat) (actor : String) (result : Int)
  | taskExpired (tid : Nat)
  | timerFired (sid : String)
  | eventMatched (name key : String) (payload : VarBag)
deriving DecidableEq

/-- Modelled from the spec: processing one step-event against the
instance's state. -/
def processEvent (collab : Collaborator) (ceiling fuel : Nat) (st : EngineState) :
    StepEventMsg → EngineState
  | StepEventMsg.taskCompleted tid actor result => (completeTask collab ceiling fuel st tid actor result).1
  | StepEventMsg.taskExpired tid => expireTask collab ceiling fuel st tid
  | StepEventMsg.timerFired sid => fireTimer collab ceiling fuel st sid
  | StepEventMsg.eventMatched name key payload => deliverEvent st name key payload

end Engine

namespace Engine

/-- Modelled from the spec: the closed status set of a process
instance. -/
def statusList : List Status :=
  [Status.running, Status.suspended, Status.completed, Status.failed, Status.cancelled]

/-- Modelled from the spec: the Instance Store's durable row for one
instance — the current-state projection together with the optimistic
version counter. -/
structure StoreRow where
  state : EngineState
  version : Nat
deriving DecidableEq

/-- Modelled from the spec: the rejection of a `save` that targets a
stale version. -/
inductive SaveError
  | staleVersion
deriving DecidableEq

/-- Modelled from the spec: `save(id, new_state, new_history_entries)`
on the Instance Store — a single atomic update keyed by the optimistic
version counter: a save targeting the current version commits the new
state (with the new history entries appended) and bumps the version; a
save targeting a stale version is rejected. -/
def save (row : StoreRow) (expected : Nat) (newState : EngineState)
    (newHist : List (String × Bool)) : Except SaveError StoreRow :=
  if expected = row.version then
    Except.ok
      { state := { newState with inst := { newState.inst with
          history := newState.inst.history ++ newHist } }
        version := row.version + 1 }
  else Except.error SaveError.staleVersion

/-- The store contents after a `save` attempt: the committed row on
success, the untouched row on rejection. -/
def trySave (row : StoreRow) (expected : Nat) (newState : EngineState)
    (newHist : List (String × Bool)) : StoreRow :=
  match save row expected newState newHist with
  | Except.ok r => r
  | Except.error _ => row

/-- Modelled from the spec: the primitive durable operations a worker
may issue against the Instance Store while processing one step-event. -/
inductive StoreOp
  | opSave (expected : Nat) (newState : EngineState) (newHist : List (String × Bool))
deriving DecidableEq

/-- Applying a sequence of store operations to the durable row. -/
def applyOps (row : StoreRow) : List StoreOp → StoreRow
  | [] => row
  | StoreOp.opSave e s h :: rest => applyOps (trySave row e s h) rest

/-- Modelled from the spec: the durable processing of one step-event —
guards and variable updates are evaluated against a snapshot taken at
the start and committed atomically at the end, so the worker issues
exactly one `save`, at the version it loaded. -/
def processDurably (collab : Collaborator) (ceiling fuel : Nat) (row : StoreRow)
    (e : StepEventMsg) : List StoreOp :=
  [StoreOp.opSave row.version (processEvent collab ceiling fuel row.state e) []]

/-- A crash after `k` of the step-event's store operations: only the
first `k` operations reached the store. -/
def runWithCrash (collab : Collaborator) (ceiling fuel : Nat) (row : StoreRow)
    (e : StepEventMsg) (k : Nat) : StoreRow :=
  applyOps row ((processDurably collab ceiling fuel row e).take k)

end Engine

namespace Engine

/-- A collaborator that always fails, for concrete executions. -/
def failingCollab : Collaborator := fun _ _ _ => Except.error "boom"

/-- A collaborator that always succeeds with no outputs, for concrete
executions. -/
def okCollab : Collaborator := fun _ _ _ => Except.ok []

/-- A concrete running instance positioned at step "g". -/
def exInst : ProcessInstance :=
  { defName := "wf", defVersion := 1, status := Status.running, vars := [],
    active := ["g"], history := [], error := none }

/-- A definition whose start is an exclusive gateway with two false
guards and no default edge (the spec's section 8 gateway scenario). -/
def exGatewayDef : ProcessDefinition :=
  { name := "wf", version := 1,
    steps := [{ id := "g", kind := StepKind.gateway false,
                edges := [{ target := "a", guard := some (Guard.boolConst false) },
                          { target := "b", guard := some (Guard.boolConst false) }] },
              { id := "a", kind := StepKind.endStep, edges := [] },
              { id := "b", kind := StepKind.endStep, edges := [] }],
    start := "g", active := true }

/-- Engine state at the gateway scenario. -/
def exGatewayState : EngineState :=
  { defn := exGatewayDef, inst := exInst, tasks := [], nextTaskId := 0,
    timers := [], appliedEvents := [] }

/-- A definition with a single task step flowing to an end step. -/
def exTaskDef : ProcessDefinition :=
  { name := "wf", version := 1,
    steps := [{ id := "t", kind := StepKind.task "alice" none,
                edges := [{ target := "e", guard := none }] },
              { id := "e", kind := StepKind.endStep, edges := [] }],
    start := "t", active := true }

/-- Engine state about to enter the task step. -/
def exTaskState : EngineState :=
  { defn := exTaskDef, inst := { exInst with active := ["t"] }, tasks := [],
    nextTaskId := 0, timers := [], appliedEvents := [] }

/-- Engine state after entering the task step: one open task with id 0. -/
def exTaskStarted : EngineState := run okCollab 5 4 exTaskState ["t"]

/-- A definition with a single timer step flowing to an end step. -/
def exTimerDef : ProcessDefinition :=
  { name := "wf", version := 1,
    steps := [{ id := "tm", kind := StepKind.timer 10,
                edges := [{ target := "e", guard := none }] },
              { id := "e", kind := StepKind.endStep, edges := [] }],
    start := "tm", active := true }

/-- Engine state about to enter the timer step. -/
def exTimerState : EngineState :=
  { defn := exTimerDef, inst := { exInst with active := ["tm"] }, tasks := [],
    nextTaskId := 0, timers := [], appliedEvents := [] }

/-- Engine state waiting on the pending timer. -/
def exTimerStarted : EngineState := run okCollab 5 4 exTimerState ["tm"]

/-- Engine state after the timer fired. -/
def exTimerFired : EngineState := fireTimer okCollab 5 4 exTimerStarted "tm"

/-- A definition with a single automatic step flowing to an end step. -/
def exAutoDef : ProcessDefinition :=
  { name := "wf", version := 1,
    steps := [{ id := "au", kind := StepKind.automatic "act",
                edges := [{ target := "e", guard := none }] },
              { id := "e", kind := StepKind.endStep, edges := [] }],
    start := "au", active := true }

/-- Engine state about to enter the automatic step. -/
def exAutoState : EngineState :=
  { defn := exAutoDef, inst := { exInst with active := ["au"] }, tasks := [],
    nextTaskId := 0, timers := [], appliedEvents := [] }

/-- Engine state after task 0 was completed with result 7: the
instance is `Completed` and the ledger entry records the result. -/
def exTaskCompleted : EngineState := (completeTask okCollab 5 4 exTaskStarted 0 "alice" 7).1

/-- A durable store row holding the gateway scenario at version 3. -/
def exRow : StoreRow := { state := exGatewayState, version := 3 }

/-- An engine state that already applied the event ("sig", "k1"). -/
def exEventApplied : EngineState :=
  deliverEvent exGatewayState "sig" "k1" [("x", 3)]

end Engine

namespace RiskModule

/-- C8: `calculateSuccessRate` is total over automation metrics: a metric
with `execution_count = 0` yields the string "0" without evaluating the
division (the checked variant never fails and agrees with the code), and
any other metric yields `success_count / execution_count * 100` formatted
to one decimal place. -/
theorem calculateSuccessRate_total (m : AutomationMetric) :
    (m.execution_count = 0 → calculateSuccessRate m = "0") ∧
    calculateSuccessRateChecked m = some (calculateSuccessRate m) ∧
    (m.execution_count ≠ 0 →
      calculateSuccessRate m =
        toFixed1 ((m.success_count : ℚ) / (m.execution_count : ℚ) * 100)) := by
  refine ⟨fun h0 => ?_, ?_, fun hne => ?_⟩
  · simp [calculateSuccessRate, h0]
  · by_cases h0 : m.execution_count = 0
    · simp [calculateSuccessRate, calculateSuccessRateChecked, h0]
    · have hq : (m.execution_count : ℚ) ≠ 0 := by
        exact_mod_cast h0
      simp [calculateSuccessRate, calculateSuccessRateChecked, checkedDiv, h0, hq]
  · simp [calculateSuccessRate, hne]

/-- Witness for C8 at concrete metrics: zero executions format as "0",
six successes out of eight executions format as "75.0". -/
theorem calculateSuccessRate_total_witness :
    calculateSuccessRate ⟨"m0", "rpa", "t0", 0, 0, 0⟩ = "0" ∧
    calculateSuccessRate ⟨"m1", "rpa", "t1", 8, 6, 2⟩ =
      toFixed1 ((6 : ℚ) / (8 : ℚ) * 100) ∧
    toFixed1 ((6 : ℚ) / (8 : ℚ) * 100) = "75.0" :=
  ⟨(calculateSuccessRate_total ⟨"m0", "rpa", "t0", 0, 0, 0⟩).1 rfl,
   (calculateSuccessRate_total ⟨"m1", "rpa", "t1", 8, 6, 2⟩).2.2 (by decide),
   by norm_num [toFixed1]; rfl⟩

/-- C9: `fetchInstances` returns at most 100 rows, sorted by
`started_at` descending, and those rows together with the omitted rest
are a permutation of the table in which every omitted row started no
later than every returned row — the view shows at most the 100 most
recently started instances. -/
theorem fetchInstances_ordered_limited (rows : List WorkflowInstance) :
    (fetchInstances rows).length ≤ 100 ∧
    List.Sorted startedDesc (fetchInstances rows) ∧
    ∃ rest, (fetchInstances rows ++ rest).Perm rows ∧
      ∀ x ∈ fetchInstances rows, ∀ y ∈ rest, y.started_at ≤ x.started_at := by
  refine ⟨?_, ?_, ?_⟩
  · simp only [fetchInstances, List.length_take]
    exact Nat.min_le_left 100 (List.insertionSort startedDesc rows).length
  · exact (List.sorted_insertionSort startedDesc rows).sublist
      (List.take_sublist 100 (List.insertionSort startedDesc rows))
  · refine ⟨(List.insertionSort startedDesc rows).drop 100, ?_, ?_⟩
    · have : fetchInstances rows ++ (List.insertionSort startedDesc rows).drop 100
          = List.insertionSort startedDesc rows := by
        simp [fetchInstances, List.take_append_drop]
      rw [this]
      exact List.perm_insertionSort startedDesc rows
    · have hs : List.Sorted startedDesc
          (fetchInstances rows ++ (List.insertionSort startedDesc rows).drop 100) := by
        have : fetchInstances rows ++ (List.insertionSort startedDesc rows).drop 100
            = List.insertionSort startedDesc rows := by
          simp [fetchInstances, List.take_append_drop]
        rw [this]
        exact List.sorted_insertionSort startedDesc rows
      have := (List.pairwise_append.mp hs).2.2
      intro x hx y hy
      exact this x hx y hy

/-- Witness for C9 at a concrete three-row table. -/
theorem fetchInstances_ordered_limited_witness :
    (fetchInstances
      [⟨"i1", "w", "running", "u", 5, none, none, none⟩,
       ⟨"i2", "w", "failed", "u", 9, none, none, none⟩,
       ⟨"i3", "w", "completed", "u", 7, none, none, none⟩]).length ≤ 100 :=
  (fetchInstances_ordered_limited _).1

/-- C10: an instance appears in `filteredInstances` if and only if it is
among the loaded instances, the search term is empty or its
`workflow_name` contains the term case-insensitively, and the status
filter is `all` or matches its status — both filters conjunctively. -/
theorem filteredInstances_iff (instances : List WorkflowInstance)
    (searchTerm selectedStatus : String) (i : WorkflowInstance) :
    i ∈ filteredInstances instances searchTerm selectedStatus ↔
      i ∈ instances ∧
        (searchTerm = "" ∨ ∃ nm, i.workflow_name = some nm ∧
          strContains (lowerStr nm) (lowerStr searchTerm) = true) ∧
        (selectedStatus = "all" ∨ i.status = selectedStatus) := by
  unfold filteredInstances matchesSearch matchesStatus
  rw [List.mem_filter]
  cases h : i.workflow_name <;>
    simp [h, Bool.and_eq_true, Bool.or_eq_true, decide_eq_true_eq]

/-- Witness for C10 at a concrete loaded list: the case-insensitive
search "incident" with status filter "all" retains the instance named
"Incident Response". -/
theorem filteredInstances_iff_witness :
    (⟨"i1", "w", "running", "u", 5, none, none, some "Incident Response"⟩ : WorkflowInstance)
      ∈ filteredInstances
        [⟨"i1", "w", "running", "u", 5, none, none, some "Incident Response"⟩]
        "incident" "all" :=
  (filteredInstances_iff
      [⟨"i1", "w", "running", "u", 5, none, none, some "Incident Response"⟩]
      "incident" "all"
      ⟨"i1", "w", "running", "u", 5, none, none, some "Incident Response"⟩).mpr
    ⟨by decide, Or.inr ⟨"Incident Response", rfl, by decide⟩, Or.inl rfl⟩

end RiskModule

namespace Engine

/-- C1: every process instance status is drawn exactly from the set
Running, Suspended, Completed, Failed, Cancelled; processing any
step-event preserves membership in that set; and a `Suspended` instance
always resumes to `Running`. -/
theorem status_closed_set :
    (∀ s : Status, s ∈ statusList) ∧
    (∀ (collab : Collaborator) (ceiling fuel : Nat) (st : EngineState) (e : StepEventMsg),
      (processEvent collab ceiling fuel st e).inst.status ∈ statusList) ∧
    (∀ st : EngineState, st.inst.status = Status.suspended →
      (resumeInstance st).inst.status = Status.running) := by
  refine ⟨fun s => ?_, fun collab ceiling fuel st e => ?_, fun st h => ?_⟩
  · cases s <;> simp [statusList]
  · cases hres : (processEvent collab ceiling fuel st e).inst.status <;> simp [statusList]
  · simp [resumeInstance, h]

/-- Witness for C1: suspending the concrete running gateway state and
resuming it yields `Running` again. -/
theorem status_closed_set_witness :
    (suspendInstance exGatewayState).inst.status = Status.suspended ∧
    (resumeInstance (suspendInstance exGatewayState)).inst.status = Status.running :=
  ⟨rfl, status_closed_set.2.2 (suspendInstance exGatewayState) rfl⟩

/-- C2: an Instance Store `save` targeting a stale optimistic version is
rejected and leaves the stored row unchanged, and the durable processing
of a step-event issues a single atomic commit, so a crash at any point
before completion leaves the instance in its pre-event state. -/
theorem save_optimistic_atomic :
    (∀ (row : StoreRow) (expected : Nat) (s : EngineState) (h : List (String × Bool)),
      expected ≠ row.version →
        save row expected s h = Except.error SaveError.staleVersion ∧
        trySave row expected s h = row) ∧
    (∀ (collab : Collaborator) (ceiling fuel : Nat) (row : StoreRow) (e : StepEventMsg) (k : Nat),
      k < (processDurably collab ceiling fuel row e).length →
        runWithCrash collab ceiling fuel row e k = row) := by
  constructor
  · intro row expected s h hne
    constructor
    · simp [save, hne]
    · simp [trySave, save, hne]
  · intro collab ceiling fuel row e k hk
    have hk0 : k = 0 := Nat.lt_one_iff.mp (by simpa [processDurably] using hk)
    subst hk0
    rfl

/-- Witness for C2: against the concrete row at version 3, a save at
version 2 is rejected, and a crash before the commit of a timer-fired
event leaves the row untouched. -/
theorem save_optimistic_atomic_witness :
    save exRow 2 exGatewayState [] = Except.error SaveError.staleVersion ∧
    runWithCrash failingCollab 5 4 exRow (StepEventMsg.timerFired "g") 0 = exRow :=
  ⟨(save_optimistic_atomic.1 exRow 2 exGatewayState [] (by decide)).1,
   save_optimistic_atomic.2 failingCollab 5 4 exRow (StepEventMsg.timerFired "g") 0 (by decide)⟩

/-- C5: redelivering a timer fire whose subscription is no longer
pending (already fired or cancelled) is a no-op, detected via the
subscription's disposition; redelivering an external event already in
the correlation history is a no-op. -/
theorem redelivery_noop :
    (∀ (collab : Collaborator) (ceiling fuel : Nat) (st : EngineState) (sid : String),
      (∀ tm ∈ st.timers, tm.stepId = sid → tm.disposition ≠ TimerDisp.pending) →
      fireTimer collab ceiling fuel st sid = st) ∧
    (∀ (st : EngineState) (name key : String) (payload : VarBag),
      (name, key) ∈ st.appliedEvents → deliverEvent st name key payload = st) := by
  constructor
  · intro collab ceiling fuel st sid hnp
    unfold fireTimer
    by_cases hrun : st.inst.status = Status.running
    · rw [if_pos hrun]
      have hfind : List.find?
          (fun tm => tm.stepId = sid && tm.disposition = TimerDisp.pending) st.timers = none := by
        rw [List.find?_eq_none]
        intro tm htm
        by_cases hs : tm.stepId = sid
        · simp [hs, hnp tm htm hs]
        · simp [hs]
      rw [hfind]
    · rw [if_neg hrun]
  · intro st name key payload hmem
    unfold deliverEvent
    by_cases hrun : st.inst.status = Status.running
    · rw [if_pos hrun, if_pos hmem]
    · rw [if_neg hrun]

/-- Witness for C5: refiring the concrete already-fired timer and
redelivering the concrete already-applied event change nothing. -/
theorem redelivery_noop_witness :
    fireTimer okCollab 5 4 exTimerFired "tm" = exTimerFired ∧
    deliverEvent exEventApplied "sig" "k1" [("x", 9)] = exEventApplied :=
  ⟨redelivery_noop.1 okCollab 5 4 exTimerFired "tm" (by decide),
   redelivery_noop.2 exEventApplied "sig" "k1" [("x", 9)] (by decide)⟩

end Engine

namespace Engine

theorem retryFrom_zero (call : Nat → Except String VarBag) (i : Nat) (le : String) :
    retryFrom call i 0 le = ⟨Except.error le, i, []⟩ := rfl

theorem retryFrom_succ (call : Nat → Except String VarBag) (i r : Nat) (le : String) :
    retryFrom call i (r + 1) le =
      match call i with
      | Except.ok out => ⟨Except.ok out, i + 1, []⟩
      | Except.error e =>
        let rest := retryFrom call (i + 1) r e
        ⟨rest.result, rest.attempts, (if r = 0 then [] else [backoff i]) ++ rest.delays⟩ := rfl

theorem retryFrom_attempts_le (call : Nat → Except String VarBag) :
    ∀ (r i : Nat) (le : String), (retryFrom call i r le).attempts ≤ i + r := by
  intro r
  induction r with
  | zero => intro i le; simp [retryFrom_zero]
  | succ r ih =>
    intro i le
    rw [retryFrom_succ]
    cases hc : call i with
    | ok out => simp
    | error e =>
      have := ih (i + 1) e
      simp only []
      omega

theorem retryFrom_all_fail (call : Nat → Except String VarBag) (e : String) :
    ∀ (r i : Nat) (le : String), 0 < r → (∀ j, j < r → call (i + j) = Except.error e) →
      retryFrom call i r le =
        ⟨Except.error e, i + r, (List.range (r - 1)).map (fun j => backoff (i + j))⟩ := by
  intro r
  induction r with
  | zero => intro i le h; omega
  | succ r ih =>
    intro i le _ hall
    rw [retryFrom_succ]
    have h0 : call i = Except.error e := by simpa using hall 0 (by omega)
    rw [h0]
    simp only []
    cases r with
    | zero =>
      simp [retryFrom_zero]
    | succ r2 =>
      have hrest := ih (i + 1) e (by omega) (fun j hj => by
        have := hall (j + 1) (by omega)
        simpa [Nat.add_assoc, Nat.add_comm 1 j] using this)
      rw [hrest]
      simp only [RetryOutcome.mk.injEq]
      refine ⟨by trivial, by omega, ?_⟩
      have hr : r2 + 1 + 1 - 1 = r2 + 1 := by omega
      have hr2 : r2 + 1 - 1 = r2 := by omega
      rw [hr, hr2, List.range_succ_eq_map]
      rw [List.map_cons, List.map_map]
      simp only [Nat.add_zero, Nat.succ_ne_zero, if_false, List.singleton_append]
      congr 1
      apply List.map_congr_left
      intro j _
      simp only [Function.comp]
      congr 1
      omega

/-- C6: the automatic-step retry process is bounded — it performs at
most `ceiling` attempts (so it always terminates and is never an
infinite loop), a run whose attempts all fail uses the exponential
backoff schedule and ends with the last error, and entering an
`Automatic` step whose collaborator call always errors transitions the
instance to the terminal `Failed` state with the error recorded. -/
theorem automatic_retry_bounded :
    (∀ (call : Nat → Except String VarBag) (ceiling : Nat),
      (runAutomaticRetries call ceiling).attempts ≤ ceiling) ∧
    (∀ (call : Nat → Except String VarBag) (ceiling : Nat) (e : String),
      0 < ceiling → (∀ i, i < ceiling → call i = Except.error e) →
      runAutomaticRetries call ceiling =
        ⟨Except.error e, ceiling, (List.range (ceiling - 1)).map backoff⟩) ∧
    (∀ (collab : Collaborator) (ceiling : Nat) (st : EngineState) (sid : String)
      (step : StepSpec) (action : String) (e : String),
      lookupStep st.defn sid = some step → step.kind = StepKind.automatic action →
      st.inst.status = Status.running → 0 < ceiling →
      (∀ i, i < ceiling → collab i action st.inst.vars = Except.error e) →
      (stepOnce collab ceiling st sid).1.inst.status = Status.failed ∧
      (stepOnce collab ceiling st sid).1.inst.error =
        some (EngineError.collaboratorError e)) := by
  refine ⟨?_, ?_, ?_⟩
  · intro call ceiling
    simpa using retryFrom_attempts_le call ceiling 0 ""
  · intro call ceiling e hpos hall
    have h := retryFrom_all_fail call e ceiling 0 "" hpos (fun j hj => by simpa using hall j hj)
    simpa [runAutomaticRetries] using h
  · intro collab ceiling st sid step action e hl hk hrun hpos hall
    have hret : runAutomaticRetries (fun i => collab i action st.inst.vars) ceiling =
        ⟨Except.error e, ceiling, (List.range (ceiling - 1)).map backoff⟩ := by
      have h := retryFrom_all_fail (fun i => collab i action st.inst.vars) e ceiling 0 ""
        hpos (fun j hj => by simpa using hall j hj)
      simpa [runAutomaticRetries] using h
    constructor <;>
      simp [stepOnce, hrun, hl, hk, histEnter, hret, failInstance]

/-- Witness for C6: the always-failing collaborator at ceiling 5 makes
five attempts with delays 1, 2, 4, 8 and fails the concrete automatic
step with the error recorded. -/
theorem automatic_retry_bounded_witness :
    runAutomaticRetries (fun _ => Except.error "boom") 5 =
      ⟨Except.error "boom", 5, (List.range 4).map backoff⟩ ∧
    (stepOnce failingCollab 5 exAutoState "au").1.inst.status = Status.failed ∧
    (stepOnce failingCollab 5 exAutoState "au").1.inst.error =
      some (EngineError.collaboratorError "boom") :=
  ⟨automatic_retry_bounded.2.1 (fun _ => Except.error "boom") 5 "boom" (by decide)
      (fun i _ => rfl),
   (automatic_retry_bounded.2.2 failingCollab 5 exAutoState "au"
      { id := "au", kind := StepKind.automatic "act",
        edges := [{ target := "e", guard := none }] } "act" "boom"
      (by decide) rfl rfl (by decide) (fun i _ => rfl)).1,
   (automatic_retry_bounded.2.2 failingCollab 5 exAutoState "au"
      { id := "au", kind := StepKind.automatic "act",
        edges := [{ target := "e", guard := none }] } "act" "boom"
      (by decide) rfl rfl (by decide) (fun i _ => rfl)).2⟩

theorem find?_first_characterization {α : Type} (p : α → Bool) :
    ∀ (l : List α) (a : α), List.find? p l = some a →
      p a = true ∧ ∃ pre post, l = pre ++ a :: post ∧ ∀ x ∈ pre, p x = false := by
  intro l
  induction l with
  | nil => intro a h; simp at h
  | cons b t ih =>
    intro a h
    by_cases hb : p b
    · rw [List.find?_cons_of_pos _ hb] at h
      obtain rfl : b = a := by injection h
      exact ⟨hb, [], t, rfl, by simp⟩
    · rw [List.find?_cons_of_neg _ (by simpa using hb)] at h
      obtain ⟨hpa, pre, post, rfl, hpre⟩ := ih a h
      refine ⟨hpa, b :: pre, post, rfl, ?_⟩
      intro x hx
      rcases List.mem_cons.mp hx with rfl | hx2
      · simpa using hb
      · exact hpre x hx2

/-- C3: for an exclusive gateway the engine evaluates the outgoing
edges against the variable bag in declaration order and takes the first
eligible edge — a found edge is eligible and everything declared before
it is not; and a gateway whose guards are all false (hence with no
declared default) makes the instance `Failed` with a `StepConfigError`
rather than silently stalling. -/
theorem gateway_first_true_edge :
    (∀ (bag : VarBag) (edges : List Edge) (e : Edge),
      List.find? (fun x => edgeTrue bag x) edges = some e →
        edgeTrue bag e = true ∧
        ∃ pre post, edges = pre ++ e :: post ∧ ∀ x ∈ pre, edgeTrue bag x = false) ∧
    (∀ (collab : Collaborator) (ceiling : Nat) (st : EngineState) (sid : String)
      (step : StepSpec) (e : Edge),
      lookupStep st.defn sid = some step → step.kind = StepKind.gateway false →
      st.inst.status = Status.running →
      List.find? (fun x => edgeTrue st.inst.vars x) step.edges = some e →
      (stepOnce collab ceiling st sid).2 = [e.target]) ∧
    (∀ (collab : Collaborator) (ceiling : Nat) (st : EngineState) (sid : String)
      (step : StepSpec),
      lookupStep st.defn sid = some step → step.kind = StepKind.gateway false →
      st.inst.status = Status.running →
      (∀ x ∈ step.edges, edgeTrue st.inst.vars x = false) →
      (stepOnce collab ceiling st sid).1.inst.status = Status.failed ∧
      (stepOnce collab ceiling st sid).1.inst.error =
        some (EngineError.stepConfigError noEligibleEdgeMsg)) := by
  refine ⟨?_, ?_, ?_⟩
  · intro bag edges e h
    exact find?_first_characterization (fun x => edgeTrue bag x) edges e h
  · intro collab ceiling st sid step e hl hk hrun hfind
    simp [stepOnce, hrun, hl, hk, followEdges, histEnter, hfind]
  · intro collab ceiling st sid step hl hk hrun hall
    have hfind : List.find? (fun x => edgeTrue st.inst.vars x) step.edges = none := by
      rw [List.find?_eq_none]
      intro x hx
      simp [hall x hx]
    constructor <;>
      simp [stepOnce, hrun, hl, hk, followEdges, histEnter, hfind, failInstance]

/-- Witness for C3 at the section 8 scenario: a gateway with two false
guards and no default edge fails the instance with a
`StepConfigError`. -/
theorem gateway_first_true_edge_witness :
    (stepOnce failingCollab 5 exGatewayState "g").1.inst.status = Status.failed ∧
    (stepOnce failingCollab 5 exGatewayState "g").1.inst.error =
      some (EngineError.stepConfigError noEligibleEdgeMsg) :=
  gateway_first_true_edge.2.2 failingCollab 5 exGatewayState "g"
    { id := "g", kind := StepKind.gateway false,
      edges := [{ target := "a", guard := some (Guard.boolConst false) },
                { target := "b", guard := some (Guard.boolConst false) }] }
    (by decide) rfl rfl (by decide)

theorem processEvent_cancelled_noop (collab : Collaborator) (ceiling fuel : Nat)
    (st : EngineState) (hst : st.inst.status = Status.cancelled)
    (htasks : ∀ t ∈ st.tasks, t.status ≠ TaskStatus.open_) :
    ∀ e, processEvent collab ceiling fuel st e = st := by
  intro e
  cases e with
  | taskCompleted tid actor result =>
    show (completeTask collab ceiling fuel st tid actor result).1 = st
    unfold completeTask
    cases hf : List.find? (fun t => t.id = tid) st.tasks with
    | none => rfl
    | some t =>
      have ht : t ∈ st.tasks := List.mem_of_find?_eq_some hf
      simp [htasks t ht]
  | taskExpired tid =>
    show expireTask collab ceiling fuel st tid = st
    unfold expireTask
    cases hf : List.find? (fun t => t.id = tid) st.tasks with
    | none => rfl
    | some t =>
      have ht : t ∈ st.tasks := List.mem_of_find?_eq_some hf
      simp [htasks t ht]
  | timerFired sid =>
    show fireTimer collab ceiling fuel st sid = st
    simp [fireTimer, hst]
  | eventMatched name key payload =>
    show deliverEvent st name key payload = st
    simp [deliverEvent, hst]

/-- C7: administrative cancellation of a non-terminal instance sets its
status to `Cancelled`, cancels every open task and every pending timer
it owns, and thereafter processing any sequence of step-events changes
nothing. -/
theorem cancel_terminal (collab : Collaborator) (ceiling fuel : Nat) (st : EngineState)
    (events : List StepEventMsg)
    (h : st.inst.status = Status.running ∨ st.inst.status = Status.suspended) :
    (cancelInstance st).inst.status = Status.cancelled ∧
    (∀ t ∈ (cancelInstance st).tasks, t.status ≠ TaskStatus.open_) ∧
    (∀ tm ∈ (cancelInstance st).timers, tm.disposition ≠ TimerDisp.pending) ∧
    List.foldl (processEvent collab ceiling fuel) (cancelInstance st) events
      = cancelInstance st := by
  have hC : cancelInstance st =
      { st with
        inst := { st.inst with status := Status.cancelled, active := [] }
        tasks := cancelOpenTasks st.tasks
        timers := cancelPendingTimers st.timers } := by
    unfold cancelInstance
    rw [if_pos h]
  have hstatus : (cancelInstance st).inst.status = Status.cancelled := by rw [hC]
  have htasks : ∀ t ∈ (cancelInstance st).tasks, t.status ≠ TaskStatus.open_ := by
    rw [hC]
    intro t ht
    obtain ⟨u, _, rfl⟩ := List.mem_map.mp ht
    by_cases hu : u.status = TaskStatus.open_ <;> simp [hu]
  have htimers : ∀ tm ∈ (cancelInstance st).timers, tm.disposition ≠ TimerDisp.pending := by
    rw [hC]
    intro tm htm
    obtain ⟨u, _, rfl⟩ := List.mem_map.mp htm
    by_cases hu : u.disposition = TimerDisp.pending <;> simp [hu]
  refine ⟨hstatus, htasks, htimers, ?_⟩
  induction events with
  | nil => rfl
  | cons e es ih =>
    rw [List.foldl_cons,
      processEvent_cancelled_noop collab ceiling fuel (cancelInstance st) hstatus htasks e]
    exact ih

/-- Witness for C7: cancelling the concrete state holding one open task
yields a `Cancelled` instance with no open task, and a batch of
redelivered step-events leaves it untouched. -/
theorem cancel_terminal_witness :
    (cancelInstance exTaskStarted).inst.status = Status.cancelled ∧
    (∀ t ∈ (cancelInstance exTaskStarted).tasks, t.status ≠ TaskStatus.open_) ∧
    List.foldl (processEvent okCollab 5 4) (cancelInstance exTaskStarted)
      [StepEventMsg.taskCompleted 0 "alice" 7, StepEventMsg.timerFired "t",
       StepEventMsg.eventMatched "sig" "k1" []]
      = cancelInstance exTaskStarted :=
  ⟨(cancel_terminal okCollab 5 4 exTaskStarted [] (by decide)).1,
   (cancel_terminal okCollab 5 4 exTaskStarted [] (by decide)).2.1,
   (cancel_terminal okCollab 5 4 exTaskStarted
      [StepEventMsg.taskCompleted 0 "alice" 7, StepEventMsg.timerFired "t",
       StepEventMsg.eventMatched "sig" "k1" []] (by decide)).2.2.2⟩

/-- The key invariant behind idempotent completion: every ledger entry
with the given id is no longer `Open`, and the id is below the fresh-id
counter, so no later step can create a new `Open` task with that id. -/
def TaskClosedAt (st : EngineState) (tid : Nat) : Prop :=
  tid < st.nextTaskId ∧ ∀ t ∈ st.tasks, t.id = tid → t.status ≠ TaskStatus.open_

theorem failInstance_taskClosed (st : EngineState) (err : EngineError) (tid : Nat)
    (h : TaskClosedAt st tid) : TaskClosedAt (failInstance st err) tid := by
  obtain ⟨h1, h2⟩ := h
  refine ⟨h1, ?_⟩
  intro t ht htid
  simp only [failInstance, cancelOpenTasks] at ht
  obtain ⟨u, hu, rfl⟩ := List.mem_map.mp ht
  by_cases hop : u.status = TaskStatus.open_
  · simp [hop]
  · simp only [if_neg hop]
    intro hcon
    exact hop hcon

theorem followEdges_taskClosed (st : EngineState) (sid : String) (edges : List Edge)
    (tid : Nat) (h : TaskClosedAt st tid) : TaskClosedAt (followEdges st sid edges).1 tid := by
  unfold followEdges
  cases hf : List.find? (fun e => edgeTrue st.inst.vars e) edges with
  | none => exact failInstance_taskClosed st _ tid h
  | some e => exact h

theorem stepOnce_taskClosed (collab : Collaborator) (ceiling : Nat) (st : EngineState)
    (sid : String) (tid : Nat) (h : TaskClosedAt st tid) :
    TaskClosedAt (stepOnce collab ceiling st sid).1 tid := by
  unfold stepOnce
  split
  · split
    · exact failInstance_taskClosed st _ tid h
    · split
      · exact h
      · unfold TaskClosedAt
        refine ⟨Nat.lt_succ_of_lt h.1, ?_⟩
        intro t ht htid
        rcases List.mem_append.mp ht with hold | hnew
        · exact h.2 t hold htid
        · rw [List.mem_singleton] at hnew
          subst hnew
          simp [histEnter] at htid
          have h1 := h.1
          omega
      · exact h
      · split
        · dsimp only []
          split
          · exact failInstance_taskClosed _ _ tid h
          · exact h
        · exact followEdges_taskClosed _ sid _ tid h
      · dsimp only []
        split
        · exact failInstance_taskClosed _ _ tid h
        · exact followEdges_taskClosed _ sid _ tid h
  · exact h

theorem run_nil (collab : Collaborator) (ceiling fuel : Nat) (st : EngineState) :
    run collab ceiling fuel st [] = st := by
  cases fuel <;> rfl

theorem run_zero_cons (collab : Collaborator) (ceiling : Nat) (st : EngineState)
    (s : String) (rest : List String) :
    run collab ceiling 0 st (s :: rest)
      = failInstance st (EngineError.stepConfigError "step budget exhausted") := rfl

theorem run_succ_cons (collab : Collaborator) (ceiling fuel : Nat) (st : EngineState)
    (s : String) (rest : List String) :
    run collab ceiling (fuel + 1) st (s :: rest)
      = run collab ceiling fuel (stepOnce collab ceiling st s).1
          ((stepOnce collab ceiling st s).2 ++ rest) := rfl

theorem run_taskClosed (collab : Collaborator) (ceiling : Nat) (tid : Nat) :
    ∀ (fuel : Nat) (st : EngineState) (l : List String), TaskClosedAt st tid →
      TaskClosedAt (run collab ceiling fuel st l) tid := by
  intro fuel
  induction fuel with
  | zero =>
    intro st l h
    cases l with
    | nil => rw [run_nil]; exact h
    | cons s rest => rw [run_zero_cons]; exact failInstance_taskClosed st _ tid h
  | succ fuel ih =>
    intro st l h
    cases l with
    | nil => rw [run_nil]; exact h
    | cons s rest =>
      rw [run_succ_cons]
      exact ih _ _ (stepOnce_taskClosed collab ceiling st s tid h)

theorem resumeFrom_taskClosed (collab : Collaborator) (ceiling fuel : Nat) (st : EngineState)
    (sid : String) (tid : Nat) (h : TaskClosedAt st tid) :
    TaskClosedAt (resumeFrom collab ceiling fuel st sid) tid := by
  unfold resumeFrom
  split
  · split
    · exact failInstance_taskClosed st _ tid h
    · exact run_taskClosed collab ceiling tid fuel _ _
        (followEdges_taskClosed st sid _ tid h)
  · exact h

/-- C4: completing a task that is not in `Open` status is a no-op that
returns the original result rather than an error, and completing the
same task twice — with the same or different results — never advances
the owning instance twice. -/
theorem complete_idempotent :
    (∀ (collab : Collaborator) (ceiling fuel : Nat) (st : EngineState) (tid : Nat)
      (actor : String) (result : Int) (t : Task),
      List.find? (fun u => u.id = tid) st.tasks = some t →
      t.status ≠ TaskStatus.open_ →
      completeTask collab ceiling fuel st tid actor result = (st, t.result)) ∧
    (∀ (collab : Collaborator) (ceiling fuel : Nat) (st : EngineState) (tid : Nat)
      (a₁ a₂ : String) (r₁ r₂ : Int),
      (∀ u ∈ st.tasks, u.id < st.nextTaskId) →
      (completeTask collab ceiling fuel
          (completeTask collab ceiling fuel st tid a₁ r₁).1 tid a₂ r₂).1
        = (completeTask collab ceiling fuel st tid a₁ r₁).1) := by
  constructor
  · intro collab ceiling fuel st tid actor result t hf hst
    unfold completeTask
    simp only [hf]
    rw [if_neg hst]
  · intro collab ceiling fuel st tid a₁ a₂ r₁ r₂ hwf
    cases hf : List.find? (fun u => u.id = tid) st.tasks with
    | none =>
      have h1 : completeTask collab ceiling fuel st tid a₁ r₁ = (st, none) := by
        unfold completeTask
        simp only [hf]
      rw [h1]
      show (completeTask collab ceiling fuel st tid a₂ r₂).1 = st
      unfold completeTask
      simp only [hf]
    | some t =>
      by_cases hop : t.status = TaskStatus.open_
      · by_cases hrun : st.inst.status = Status.running
        · have h1 : (completeTask collab ceiling fuel st tid a₁ r₁).1
              = resumeFrom collab ceiling fuel
                  { st with tasks := markCompleted st.tasks tid r₁ } t.stepId := by
            unfold completeTask
            simp only [hf]
            rw [if_pos hop, if_pos hrun]
          have hmem : t ∈ st.tasks := List.mem_of_find?_eq_some hf
          have htid : t.id = tid := by simpa using List.find?_some hf
          have hclosed0 : TaskClosedAt
              { st with tasks := markCompleted st.tasks tid r₁ } tid := by
            constructor
            · exact htid ▸ hwf t hmem
            · intro u hu huid
              simp only [markCompleted] at hu
              obtain ⟨v, hv, rfl⟩ := List.mem_map.mp hu
              by_cases hvid : v.id = tid
              · simp [hvid]
              · simp only [if_neg hvid] at huid ⊢
                exact absurd huid hvid
          have hclosed := resumeFrom_taskClosed collab ceiling fuel
            { st with tasks := markCompleted st.tasks tid r₁ } t.stepId tid hclosed0
          rw [h1]
          cases hf2 : List.find? (fun u => u.id = tid)
              (resumeFrom collab ceiling fuel
                { st with tasks := markCompleted st.tasks tid r₁ } t.stepId).tasks with
          | none =>
            unfold completeTask
            simp only [hf2]
          | some t2 =>
            have ht2mem : t2 ∈ (resumeFrom collab ceiling fuel
                { st with tasks := markCompleted st.tasks tid r₁ } t.stepId).tasks :=
              List.mem_of_find?_eq_some hf2
            have ht2id : t2.id = tid := by simpa using List.find?_some hf2
            have ht2 : t2.status ≠ TaskStatus.open_ := hclosed.2 t2 ht2mem ht2id
            unfold completeTask
            simp only [hf2]
            rw [if_neg ht2]
        · have h1 : completeTask collab ceiling fuel st tid a₁ r₁ = (st, none) := by
            unfold completeTask
            simp only [hf]
            rw [if_pos hop, if_neg hrun]
          rw [h1]
          show (completeTask collab ceiling fuel st tid a₂ r₂).1 = st
          unfold completeTask
          simp only [hf]
          rw [if_pos hop, if_neg hrun]
      · have h1 : completeTask collab ceiling fuel st tid a₁ r₁ = (st, t.result) := by
          unfold completeTask
          simp only [hf]
          rw [if_neg hop]
        rw [h1]
        show (completeTask collab ceiling fuel st tid a₂ r₂).1 = st
        unfold completeTask
        simp only [hf]
        rw [if_neg hop]

/-- Witness for C4: after the concrete task 0 was completed with result
7, a second completion by another actor returns the original result and
leaves the state untouched. -/
theorem complete_idempotent_witness :
    completeTask okCollab 5 4 exTaskCompleted 0 "bob" 99 = (exTaskCompleted, some 7) ∧
    (completeTask okCollab 5 4
        (completeTask okCollab 5 4 exTaskStarted 0 "alice" 7).1 0 "bob" 99).1
      = (completeTask okCollab 5 4 exTaskStarted 0 "alice" 7).1 :=
  ⟨complete_idempotent.1 okCollab 5 4 exTaskCompleted 0 "bob" 99
      ⟨0, "t", "alice", none, TaskStatus.completed, some 7⟩ (by decide) (by decide),
   complete_idempotent.2 okCollab 5 4 exTaskStarted 0 "alice" "bob" 7 99 (by decide)⟩

end Engine
